/-
Verification development for the Budget-Planer backend.

The definitions below are a shallow embedding of the business-rule layer of
src/backend/core: models.py (status classification, aggregation, templates,
reduction/tax arithmetic), views.py (template creation, budget import),
utils.py (spreadsheet export) and exception_handler.py.  Python Decimal
amounts are embedded as exact rationals (Decimal arithmetic in this code
path is exact well beyond the 90/100 threshold comparisons), `None` as
`Option`, and Python truthiness of amounts (`None` and `0` are falsy) is
spelled out at each use site.
-/
import Mathlib

namespace BudgetPlaner

/-! ## Enumerations (models.py choice fields) -/

/-- models.py `BudgetCategory.CATEGORY_TYPES`. -/
inductive CategoryType
  | INCOME
  | FIXED_EXPENSE
  | VARIABLE_EXPENSE
  | SAVINGS
  deriving DecidableEq, Repr

/-- models.py `BudgetCategory.INPUT_MODES`. -/
inductive InputMode
  | MONTHLY
  | YEARLY
  | CUSTOM
  deriving DecidableEq, Repr

/-- models.py `BudgetEntry.STATUS_CHOICES`. -/
inductive EntryStatus
  | WITHIN_BUDGET
  | WARNING
  | OVER_BUDGET
  deriving DecidableEq, Repr

/-- models.py `SalaryReduction.REDUCTION_TYPES`. -/
inductive ReductionType
  | PERCENTAGE
  | FIXED
  deriving DecidableEq, Repr

/-! ## Entries and status classification (models.py `BudgetEntry`) -/

/-- models.py `BudgetEntry` (lines 158-198): the persisted columns.
`category` is the foreign-key id; `actual_amount` is nullable. -/
structure BudgetEntry where
  category : Nat
  month : Int
  year : Int
  planned_amount : Rat := 0
  actual_amount : Option Rat := none
  notes : String := ""
  status : EntryStatus := .WITHIN_BUDGET
  deriving DecidableEq, Repr

/-- models.py `BudgetEntry.calculate_status` (lines 203-231).
`self.category.category_type` is passed in as `category_type`.
Python `not self.actual_amount or self.actual_amount == 0` is true exactly
when the amount is `None` or `0`. -/
def BudgetEntry.calculate_status (e : BudgetEntry) (category_type : CategoryType) :
    EntryStatus :=
  match e.actual_amount with
  | none => .WITHIN_BUDGET
  | some actual =>
    if actual = 0 then .WITHIN_BUDGET
    else
      let planned := e.planned_amount
      if planned = 0 then
        if actual > 0 then .OVER_BUDGET else .WITHIN_BUDGET
      else
        let percentage := actual / planned * 100
        if category_type = .INCOME then
          if percentage ≥ 100 then .WITHIN_BUDGET
          else if percentage ≥ 90 then .WARNING
          else .OVER_BUDGET
        else
          if percentage ≤ 90 then .WITHIN_BUDGET
          else if percentage ≤ 100 then .WARNING
          else .OVER_BUDGET

/-- models.py `BudgetEntry.save` (lines 233-236): every write first
recomputes `status` from the amounts. -/
def BudgetEntry.save (e : BudgetEntry) (category_type : CategoryType) : BudgetEntry :=
  { e with status := e.calculate_status category_type }

/-- The classification rule exactly as the specification claim words it
(spec.md section 4.1): absent-or-zero actual, the planned = 0 special case,
then threshold ranges on percentage = actual / planned × 100, with the
INCOME thresholds inverted relative to the expense thresholds. -/
def specStatusRule (category_type : CategoryType) (planned : Rat)
    (actual : Option Rat) : EntryStatus :=
  match actual with
  | none => .WITHIN_BUDGET
  | some a =>
    if a = 0 then .WITHIN_BUDGET
    else if planned = 0 then
      if a > 0 then .OVER_BUDGET else .WITHIN_BUDGET
    else
      let percentage := a / planned * 100
      if category_type = .INCOME then
        if 100 ≤ percentage then .WITHIN_BUDGET
        else if 90 ≤ percentage ∧ percentage < 100 then .WARNING
        else .OVER_BUDGET
      else
        if percentage ≤ 90 then .WITHIN_BUDGET
        else if 90 < percentage ∧ percentage ≤ 100 then .WARNING
        else .OVER_BUDGET

/-- Claim C1: the status persisted by any write of a budget entry equals the
specification's classification rule (absent/zero actual ⇒ WITHIN_BUDGET;
planned = 0 special case; INCOME thresholds 100/90 inverted against the
expense thresholds 90/100 on percentage = actual / planned × 100). -/
theorem save_persists_spec_status (e : BudgetEntry) (category_type : CategoryType) :
    (e.save category_type).status =
      specStatusRule category_type e.planned_amount e.actual_amount := by
  show e.calculate_status category_type =
      specStatusRule category_type e.planned_amount e.actual_amount
  unfold BudgetEntry.calculate_status specStatusRule
  cases e.actual_amount with
  | none => rfl
  | some a =>
    by_cases ha : a = 0
    · simp [ha]
    · by_cases hp : e.planned_amount = 0
      · simp [ha, hp]
      · by_cases hct : category_type = CategoryType.INCOME
        · simp only [ha, hp, hct, if_false, if_true, ite_true, ite_false]
          split_ifs with h1 h2 h3 h4 <;> first
            | rfl
            | (exfalso; push_neg at *; first | linarith | simp_all; linarith)
        · simp only [ha, hp, hct, if_false, if_true, ite_true, ite_false]
          split_ifs with h1 h2 h3 h4 <;> first
            | rfl
            | (exfalso; push_neg at *; first | linarith | simp_all; linarith)

/-- Claim C1 witness: a concrete write; INCOME entry at 2800/3000 (93.3 %)
persists WARNING, matching the rule. -/
theorem save_persists_spec_status_witness :
    (BudgetEntry.save
        { category := 1, month := 1, year := 2026,
          planned_amount := 3000, actual_amount := some 2800 }
        CategoryType.INCOME).status =
      specStatusRule CategoryType.INCOME 3000 (some 2800) :=
  save_persists_spec_status
    { category := 1, month := 1, year := 2026,
      planned_amount := 3000, actual_amount := some 2800 }
    CategoryType.INCOME

/-! ## Salary reductions and tax entries (models.py) -/

/-- models.py `SalaryReduction` (lines 239-261): persisted columns. -/
structure SalaryReduction where
  budget : Nat
  name : String
  reduction_type : ReductionType := .PERCENTAGE
  value : Rat
  order : Int := 0
  is_active : Bool := true
  deriving DecidableEq, Repr

/-- models.py `SalaryReduction.calculate_amount` (lines 268-276).
Python `not gross_salary or gross_salary == 0` is true exactly for `None`
and `0`. -/
def SalaryReduction.calculate_amount (r : SalaryReduction)
    (gross_salary : Option Rat) : Rat :=
  match gross_salary with
  | none => 0
  | some g =>
    if g = 0 then 0
    else
      match r.reduction_type with
      | .PERCENTAGE => g * r.value / 100
      | .FIXED => r.value

/-- models.py `TaxEntry` (lines 279-295): persisted columns. -/
structure TaxEntry where
  budget : Nat
  name : String
  percentage : Rat
  order : Int := 0
  is_active : Bool := true
  deriving DecidableEq, Repr

/-- models.py `TaxEntry.calculate_amount` (lines 300-304). -/
def TaxEntry.calculate_amount (t : TaxEntry) (salary_amount : Option Rat) : Rat :=
  match salary_amount with
  | none => 0
  | some s => if s = 0 then 0 else s * t.percentage / 100

/-- Claim C7: reduction amount is 0 for absent/zero gross, else
gross × value / 100 for PERCENTAGE and exactly value for FIXED; tax amount
is 0 for absent/zero salary, else salary × percentage / 100. -/
theorem calculate_amount_spec (r : SalaryReduction) (t : TaxEntry) (g s : Rat) :
    r.calculate_amount none = 0 ∧
    r.calculate_amount (some 0) = 0 ∧
    (g ≠ 0 → r.reduction_type = .PERCENTAGE →
      r.calculate_amount (some g) = g * r.value / 100) ∧
    (g ≠ 0 → r.reduction_type = .FIXED →
      r.calculate_amount (some g) = r.value) ∧
    t.calculate_amount none = 0 ∧
    t.calculate_amount (some 0) = 0 ∧
    (s ≠ 0 → t.calculate_amount (some s) = s * t.percentage / 100) := by
  refine ⟨rfl, by simp [SalaryReduction.calculate_amount], ?_, ?_, rfl,
    by simp [TaxEntry.calculate_amount], ?_⟩
  · intro hg hty
    simp [SalaryReduction.calculate_amount, hg, hty]
  · intro hg hty
    simp [SalaryReduction.calculate_amount, hg, hty]
  · intro hs
    simp [TaxEntry.calculate_amount, hs]

/-- Claim C7 witness: a 10 % reduction on a gross salary of 200 is 20. -/
theorem calculate_amount_spec_witness :
    SalaryReduction.calculate_amount
      { budget := 1, name := "A", reduction_type := .PERCENTAGE, value := 10 }
      (some 200) = 200 * 10 / 100 :=
  (calculate_amount_spec
    { budget := 1, name := "A", reduction_type := .PERCENTAGE, value := 10 }
    { budget := 1, name := "B", percentage := 5 } 200 1).2.2.1
    (by norm_num) rfl

/-! ## Budget-level monthly summary (models.py `Budget.get_monthly_summary`) -/

/-- An entry joined with its category's type, as produced by the
`select_related('category')` query in models.py line 21-25. -/
structure JoinedEntry where
  category_type : CategoryType
  month : Int
  year : Int
  planned_amount : Rat := 0
  actual_amount : Option Rat := none
  deriving DecidableEq, Repr

/-- Python `entry.actual_amount or entry.planned_amount` (models.py line 31):
`None` and `Decimal('0')` are falsy, so a zero actual amount falls back to
the planned amount. -/
def actualOrPlanned (actual : Option Rat) (planned : Rat) : Rat :=
  match actual with
  | none => planned
  | some a => if a = 0 then planned else a

/-- The dict returned by `Budget.get_monthly_summary` (without the raw
entry list, which is a query object, not an aggregate). -/
structure MonthlySummary where
  month : Int
  year : Int
  total_income : Rat
  total_expenses : Rat
  balance : Rat
  deriving DecidableEq, Repr

/-- models.py `Budget.get_monthly_summary` (lines 19-44): filter the
budget's entries to the month/year, accumulate the actual-or-planned amount
into income or expenses by category type, balance = income − expenses. -/
def get_monthly_summary (entries : List JoinedEntry) (month year : Int) :
    MonthlySummary :=
  let filtered := entries.filter (fun e => decide (e.month = month ∧ e.year = year))
  let totals := filtered.foldl
    (fun (acc : Rat × Rat) e =>
      let amount := actualOrPlanned e.actual_amount e.planned_amount
      if e.category_type = .INCOME then (acc.1 + amount, acc.2)
      else (acc.1, acc.2 + amount))
    (0, 0)
  { month := month, year := year, total_income := totals.1,
    total_expenses := totals.2, balance := totals.1 - totals.2 }

/-- The per-entry amount exactly as claim C2 words it: the actual amount
whenever one is present (explicitly including an actual amount of 0), the
planned amount only when the actual amount is absent. -/
def claimC2Amount (e : JoinedEntry) : Rat :=
  match e.actual_amount with
  | some a => a
  | none => e.planned_amount

/-- The monthly summary exactly as claim C2 words it. -/
def claimC2MonthlySummary (entries : List JoinedEntry) (month year : Int) :
    MonthlySummary :=
  let filtered := entries.filter (fun e => decide (e.month = month ∧ e.year = year))
  let ti := ((filtered.filter (fun e => decide (e.category_type = .INCOME))).map
    claimC2Amount).sum
  let te := ((filtered.filter (fun e => decide (¬ e.category_type = .INCOME))).map
    claimC2Amount).sum
  { month := month, year := year, total_income := ti, total_expenses := te,
    balance := ti - te }

/-- An INCOME entry with planned 3000 and a present actual amount of 0. -/
def zeroActualEntry : JoinedEntry :=
  { category_type := .INCOME, month := 1, year := 2026,
    planned_amount := 3000, actual_amount := some 0 }

/-- Claim C2 counterexample: one INCOME entry with planned 3000 and a
present actual amount of 0.  The code's Python-truthiness fallback uses the
planned amount (income 3000), while the claim's rule uses the actual amount
of 0 (income 0), so the claim as stated is false on this input. -/
theorem monthly_summary_claim_counterexample :
    (get_monthly_summary [zeroActualEntry] 1 2026).total_income = 3000 ∧
    (claimC2MonthlySummary [zeroActualEntry] 1 2026).total_income = 0 ∧
    get_monthly_summary [zeroActualEntry] 1 2026
      ≠ claimC2MonthlySummary [zeroActualEntry] 1 2026 := by
  have h1 : (get_monthly_summary [zeroActualEntry] 1 2026).total_income = 3000 := by
    norm_num [get_monthly_summary, zeroActualEntry, actualOrPlanned]
  have h2 : (claimC2MonthlySummary [zeroActualEntry] 1 2026).total_income = 0 := by
    norm_num [claimC2MonthlySummary, zeroActualEntry, claimC2Amount]
  refine ⟨h1, h2, fun h => ?_⟩
  rw [h, h2] at h1
  norm_num at h1

/-- The monthly summary as claim C2 must be amended: the amount used per
entry is the actual amount when it is present and nonzero, and the planned
amount when the actual amount is absent or zero. -/
def amendedC2MonthlySummary (entries : List JoinedEntry) (month year : Int) :
    MonthlySummary :=
  let filtered := entries.filter (fun e => decide (e.month = month ∧ e.year = year))
  let amount := fun (e : JoinedEntry) =>
    match e.actual_amount with
    | some a => if a = 0 then e.planned_amount else a
    | none => e.planned_amount
  let ti := ((filtered.filter (fun e => decide (e.category_type = .INCOME))).map
    amount).sum
  let te := ((filtered.filter (fun e => decide (¬ e.category_type = .INCOME))).map
    amount).sum
  { month := month, year := year, total_income := ti, total_expenses := te,
    balance := ti - te }

theorem monthly_summary_foldl (l : List JoinedEntry) (a b : Rat) :
    l.foldl
      (fun (acc : Rat × Rat) e =>
        let amount := actualOrPlanned e.actual_amount e.planned_amount
        if e.category_type = .INCOME then (acc.1 + amount, acc.2)
        else (acc.1, acc.2 + amount))
      (a, b) =
    (a + ((l.filter (fun e => decide (e.category_type = .INCOME))).map
        (fun e => actualOrPlanned e.actual_amount e.planned_amount)).sum,
     b + ((l.filter (fun e => decide (¬ e.category_type = .INCOME))).map
        (fun e => actualOrPlanned e.actual_amount e.planned_amount)).sum) := by
  induction l generalizing a b with
  | nil => simp
  | cons x xs ih =>
    by_cases hx : x.category_type = .INCOME
    · simp [List.foldl_cons, hx, ih, add_assoc]
    · simp [List.foldl_cons, hx, ih, add_assoc]

/-- Claim C2 (amended): the monthly summary splits the actual-or-planned
amount (with Python truthiness: a zero actual falls back to planned) by
INCOME versus all other category types, with balance = income − expenses. -/
theorem monthly_summary_amended_spec (entries : List JoinedEntry) (month year : Int) :
    get_monthly_summary entries month year =
      amendedC2MonthlySummary entries month year := by
  have hamount : (fun (e : JoinedEntry) =>
      actualOrPlanned e.actual_amount e.planned_amount) =
      fun (e : JoinedEntry) =>
        match e.actual_amount with
        | some a => if a = 0 then e.planned_amount else a
        | none => e.planned_amount := by
    funext e
    cases e.actual_amount <;> rfl
  unfold get_monthly_summary amendedC2MonthlySummary
  dsimp only
  rw [monthly_summary_foldl]
  simp only [zero_add, hamount]

/-! ## Category-level totals (models.py `BudgetCategory`) -/

/-- The dict returned by `BudgetCategory.get_monthly_total`. -/
structure CategoryMonthlyTotal where
  month : Int
  year : Int
  total_planned : Rat
  total_actual : Rat
  deriving DecidableEq, Repr

/-- The dict returned by `BudgetCategory.get_yearly_total`. -/
structure CategoryYearlyTotal where
  year : Int
  total_planned : Rat
  total_actual : Rat
  deriving DecidableEq, Repr

/-- Python `Decimal(e.actual_amount) if e.actual_amount else Decimal('0')`
(models.py lines 130-133 and 146-149): truthiness sends both `None` and a
zero actual to 0. -/
def truthyActual (e : BudgetEntry) : Rat :=
  match e.actual_amount with
  | none => 0
  | some a => if a = 0 then 0 else a

/-- models.py `BudgetCategory.get_monthly_total` (lines 126-140), over the
category's entries. -/
def get_monthly_total (entries : List BudgetEntry) (month year : Int) :
    CategoryMonthlyTotal :=
  let ents := entries.filter (fun e => decide (e.month = month ∧ e.year = year))
  { month := month, year := year,
    total_planned := (ents.map (fun e => e.planned_amount)).sum,
    total_actual := (ents.map truthyActual).sum }

/-- models.py `BudgetCategory.get_yearly_total` (lines 142-155). -/
def get_yearly_total (entries : List BudgetEntry) (year : Int) :
    CategoryYearlyTotal :=
  let ents := entries.filter (fun e => decide (e.year = year))
  { year := year,
    total_planned := (ents.map (fun e => e.planned_amount)).sum,
    total_actual := (ents.map truthyActual).sum }

theorem truthyActual_eq_getD (e : BudgetEntry) :
    truthyActual e = e.actual_amount.getD 0 := by
  unfold truthyActual
  cases e.actual_amount with
  | none => rfl
  | some a =>
    by_cases ha : a = 0 <;> simp [ha]

/-- Claim C3: category monthly and yearly totals sum planned amounts and
actual amounts independently, an absent actual amount contributing 0 to the
actual sum; the planned amount is never substituted for a missing actual
amount (the actual sum depends only on the actual amounts). -/
theorem category_totals_spec (entries : List BudgetEntry) (month year : Int) :
    (get_monthly_total entries month year).total_planned =
      ((entries.filter (fun e => decide (e.month = month ∧ e.year = year))).map
        (fun e => e.planned_amount)).sum ∧
    (get_monthly_total entries month year).total_actual =
      ((entries.filter (fun e => decide (e.month = month ∧ e.year = year))).map
        (fun e => e.actual_amount.getD 0)).sum ∧
    (get_yearly_total entries year).total_planned =
      ((entries.filter (fun e => decide (e.year = year))).map
        (fun e => e.planned_amount)).sum ∧
    (get_yearly_total entries year).total_actual =
      ((entries.filter (fun e => decide (e.year = year))).map
        (fun e => e.actual_amount.getD 0)).sum := by
  have hfun : truthyActual = fun (e : BudgetEntry) => e.actual_amount.getD 0 :=
    funext truthyActual_eq_getD
  refine ⟨rfl, ?_, rfl, ?_⟩ <;>
    simp [get_monthly_total, get_yearly_total, hfun]

/-! ## Categories and templates (models.py `BudgetCategory`, `BudgetTemplate`) -/

/-- models.py `BudgetCategory` (lines 74-121): persisted columns.
`budget` is the foreign-key id. -/
structure BudgetCategory where
  id : Nat
  budget : Nat
  name : String
  category_type : CategoryType
  order : Int := 0
  is_active : Bool := true
  input_mode : InputMode := .MONTHLY
  custom_months : Option Int := none
  custom_start_month : Option Int := some 1
  yearly_amount : Option Rat := none
  deriving DecidableEq, Repr

/-- One category dict inside `BudgetTemplate.categories` (a JSON list).
`name` and `category_type` are always written by views.py
`create_from_budget`; the remaining keys are read back with `dict.get`, so
they are optional here. -/
structure TemplateCategory where
  name : String
  category_type : CategoryType
  order : Option Int := none
  input_mode : Option InputMode := none
  custom_months : Option Int := none
  custom_start_month : Option Int := none
  deriving DecidableEq, Repr

/-- models.py `BudgetTemplate` (lines 345-358): a standalone name plus a
JSON list of category shapes. -/
structure BudgetTemplate where
  name : String
  categories : List TemplateCategory
  deriving DecidableEq, Repr

/-- The `order_by('order', 'name')` key of views.py line 488. -/
def categoryKeyLe (a b : BudgetCategory) : Bool :=
  decide (a.order < b.order ∨ (a.order = b.order ∧ a.name ≤ b.name))

def insertSortedCategory (c : BudgetCategory) :
    List BudgetCategory → List BudgetCategory
  | [] => [c]
  | x :: xs =>
    if categoryKeyLe c x then c :: x :: xs else x :: insertSortedCategory c xs

/-- Stable sort by (order, name), embedding `order_by('order', 'name')`. -/
def orderByOrderName : List BudgetCategory → List BudgetCategory
  | [] => []
  | x :: xs => insertSortedCategory x (orderByOrderName xs)

/-- views.py `create_from_budget` lines 488-501: the active categories of
the budget, ordered by (order, name), each reduced to its shape dict —
`yearly_amount` is deliberately not included. -/
def captureCategoryData (cats : List BudgetCategory) : List TemplateCategory :=
  (orderByOrderName (cats.filter (fun c => c.is_active))).map
    (fun c =>
      { name := c.name, category_type := c.category_type,
        order := some c.order, input_mode := some c.input_mode,
        custom_months := c.custom_months,
        custom_start_month := c.custom_start_month })

/-- The responses `create_from_budget` can produce: HTTP 400, 200, 201 and
409; every error body carries an `error` code. -/
inductive CfbResponse
  | badRequest (error : String)
  | ok (template : BudgetTemplate)
  | created (template : BudgetTemplate)
  | conflict (error : String)
  deriving DecidableEq, Repr

/-- `existing_template.categories = category_data; existing_template.save()`
(views.py lines 509-510): update the row found by the name filter. -/
def replaceFirstTemplate :
    List BudgetTemplate → String → List TemplateCategory → List BudgetTemplate
  | [], _, _ => []
  | t :: ts, nm, data =>
    if t.name = nm then { t with categories := data } :: ts
    else t :: replaceFirstTemplate ts nm data

/-- views.py `BudgetTemplateViewSet.create_from_budget` (lines 468-533).
`templates` is the template table, `budget_categories` the target budget's
categories.  `concurrent_duplicate` models the race in which another
request inserts the same name between the existence check and the create,
surfacing as the `IntegrityError` caught at line 528. -/
def create_from_budget (templates : List BudgetTemplate)
    (budget_categories : List BudgetCategory) (template_name : String)
    (overwrite : Bool) (concurrent_duplicate : Bool) :
    List BudgetTemplate × CfbResponse :=
  if template_name = "" then (templates, .badRequest "name is required")
  else
    let category_data := captureCategoryData budget_categories
    match templates.find? (fun t => decide (t.name = template_name)) with
    | some existing =>
      if overwrite then
        (replaceFirstTemplate templates template_name category_data,
         .ok { existing with categories := category_data })
      else (templates, .conflict "DUPLICATE_NAME")
    | none =>
      if concurrent_duplicate then (templates, .conflict "DUPLICATE_NAME")
      else
        (templates ++ [{ name := template_name, categories := category_data }],
         .created { name := template_name, categories := category_data })

theorem replaceFirstTemplate_length (ts : List BudgetTemplate) (nm : String)
    (data : List TemplateCategory) :
    (replaceFirstTemplate ts nm data).length = ts.length := by
  induction ts with
  | nil => rfl
  | cons t ts ih =>
    by_cases h : t.name = nm <;> simp [replaceFirstTemplate, h, ih]

theorem mem_replaceFirstTemplate (ts : List BudgetTemplate) (nm : String)
    (data : List TemplateCategory)
    (hnd : (ts.map (fun t => t.name)).Nodup) :
    ∀ t ∈ replaceFirstTemplate ts nm data,
      (t.name = nm ∧ t.categories = data) ∨ (t.name ≠ nm ∧ t ∈ ts) := by
  induction ts with
  | nil => intro t ht; simp [replaceFirstTemplate] at ht
  | cons t0 ts ih =>
    simp only [List.map_cons, List.nodup_cons] at hnd
    intro t ht
    by_cases h0 : t0.name = nm
    · simp only [replaceFirstTemplate, h0, if_true, List.mem_cons] at ht
      rcases ht with rfl | ht
      · exact Or.inl ⟨rfl, rfl⟩
      · refine Or.inr ⟨fun heq => hnd.1 ?_, List.mem_cons_of_mem _ ht⟩
        rw [h0, ← heq]
        exact List.mem_map_of_mem _ ht
    · simp only [replaceFirstTemplate, h0, if_false, List.mem_cons] at ht
      rcases ht with rfl | ht
      · exact Or.inr ⟨h0, List.mem_cons_self _ _⟩
      · rcases ih hnd.2 t ht with h | ⟨hne, hmem⟩
        · exact Or.inl h
        · exact Or.inr ⟨hne, List.mem_cons_of_mem _ hmem⟩

/-- Claim C4: with a template of the requested name already present (or a
concurrent duplicate surfacing as a storage uniqueness violation),
overwrite = false yields the DUPLICATE_NAME conflict and leaves the
template table untouched; overwrite = true replaces exactly the existing
template's category list with the shape captured from the budget's active
categories, leaving every other template unchanged and creating none. -/
theorem create_from_budget_spec (ts : List BudgetTemplate)
    (cats : List BudgetCategory) (nm : String) (race : Bool)
    (hnm : nm ≠ "") (hnd : (ts.map (fun t => t.name)).Nodup) :
    (((∃ t ∈ ts, t.name = nm) ∨ race = true) →
      (create_from_budget ts cats nm false race).2 = .conflict "DUPLICATE_NAME" ∧
      (create_from_budget ts cats nm false race).1 = ts) ∧
    ((∃ t ∈ ts, t.name = nm) →
      (∀ t ∈ (create_from_budget ts cats nm true race).1,
        t.name = nm → t.categories = captureCategoryData cats) ∧
      (∀ t ∈ (create_from_budget ts cats nm true race).1, t.name ≠ nm → t ∈ ts) ∧
      (create_from_budget ts cats nm true race).1.length = ts.length) := by
  cases hf : ts.find? (fun t => decide (t.name = nm)) with
  | none =>
    have hnone : ∀ t ∈ ts, t.name ≠ nm := by
      intro t ht
      have := List.find?_eq_none.mp hf t ht
      simpa using this
    constructor
    · rintro (⟨t, ht, hteq⟩ | hrace)
      · exact absurd hteq (hnone t ht)
      · simp [create_from_budget, hnm, hf, hrace]
    · rintro ⟨t, ht, hteq⟩
      exact absurd hteq (hnone t ht)
  | some t0 =>
    constructor
    · intro _
      simp [create_from_budget, hnm, hf]
    · intro _
      have hres : (create_from_budget ts cats nm true race).1 =
          replaceFirstTemplate ts nm (captureCategoryData cats) := by
        simp [create_from_budget, hnm, hf]
      rw [hres]
      refine ⟨fun t ht heq => ?_, fun t ht hne => ?_,
        replaceFirstTemplate_length ts nm _⟩
      · rcases mem_replaceFirstTemplate ts nm _ hnd t ht with ⟨_, h⟩ | ⟨hne, _⟩
        · exact h
        · exact absurd heq hne
      · rcases mem_replaceFirstTemplate ts nm _ hnd t ht with ⟨heq, _⟩ | ⟨_, h⟩
        · exact absurd heq hne
        · exact h

/-- Claim C4 witness: with one stored template named T, overwrite = false
returns the DUPLICATE_NAME conflict and leaves the table unchanged. -/
theorem create_from_budget_spec_witness :
    (create_from_budget [{ name := "T", categories := [] }] [] "T" false false).2 =
      .conflict "DUPLICATE_NAME" ∧
    (create_from_budget [{ name := "T", categories := [] }] [] "T" false false).1 =
      [{ name := "T", categories := [] }] :=
  (create_from_budget_spec [{ name := "T", categories := [] }] [] "T" false
    (by simp) (by simp)).1
    (Or.inl ⟨{ name := "T", categories := [] }, by simp, rfl⟩)

/-! ## Template application (models.py `BudgetTemplate.apply_to_budget`) -/

/-- The category row created by `get_or_create` in models.py lines 365-376:
the shape fields of the template dict with the `dict.get` defaults, an
explicit `yearly_amount = None`, and the model default `is_active = True`. -/
def newCategoryFromTemplate (t : TemplateCategory) (b : Nat) (nid : Nat) :
    BudgetCategory :=
  { id := nid, budget := b, name := t.name, category_type := t.category_type,
    order := t.order.getD 0, is_active := true,
    input_mode := t.input_mode.getD .MONTHLY, custom_months := t.custom_months,
    custom_start_month := t.custom_start_month, yearly_amount := none }

/-- models.py `BudgetTemplate.apply_to_budget` (lines 360-380): for each
category dict of the template, `get_or_create` on (budget, name); on a miss
the row of `newCategoryFromTemplate` is created and collected.  Returns the
updated category table together with the list of newly created categories.
`nid` supplies fresh row ids. -/
def apply_to_budget :
    List TemplateCategory → Nat → List BudgetCategory → Nat →
      List BudgetCategory × List BudgetCategory
  | [], _, cats, _ => (cats, [])
  | t :: rest, b, cats, nid =>
    match cats.find? (fun c => decide (c.budget = b ∧ c.name = t.name)) with
    | some _ => apply_to_budget rest b cats nid
    | none =>
      let c := newCategoryFromTemplate t b nid
      let res := apply_to_budget rest b (cats ++ [c]) (nid + 1)
      (res.1, c :: res.2)

/-- Claim C6: applying a template get-or-creates per category name on the
target budget; the final table is the original table plus exactly the
returned created categories (pre-existing categories are neither duplicated
nor modified); every created category copies the shape fields of a template
entry, is active on the target budget with no yearly_amount, and its name
did not previously exist on the budget; and after application every
template name is present on the budget. -/
theorem apply_to_budget_spec (tmpl : List TemplateCategory) (b : Nat)
    (cats : List BudgetCategory) (nid : Nat) :
    (apply_to_budget tmpl b cats nid).1 =
      cats ++ (apply_to_budget tmpl b cats nid).2 ∧
    (∀ c ∈ (apply_to_budget tmpl b cats nid).2,
      c.budget = b ∧ c.yearly_amount = none ∧ c.is_active = true ∧
      (∃ t ∈ tmpl, c.name = t.name ∧ c.category_type = t.category_type ∧
        c.order = t.order.getD 0 ∧ c.input_mode = t.input_mode.getD .MONTHLY ∧
        c.custom_months = t.custom_months ∧
        c.custom_start_month = t.custom_start_month) ∧
      (∀ c0 ∈ cats, ¬ (c0.budget = b ∧ c0.name = c.name))) ∧
    (∀ t ∈ tmpl, ∃ c ∈ (apply_to_budget tmpl b cats nid).1,
      c.budget = b ∧ c.name = t.name) := by
  induction tmpl generalizing cats nid with
  | nil => simp [apply_to_budget]
  | cons t rest ih =>
    cases hf : cats.find? (fun c => decide (c.budget = b ∧ c.name = t.name)) with
    | some c0 =>
      have hres : apply_to_budget (t :: rest) b cats nid =
          apply_to_budget rest b cats nid := by
        simp only [apply_to_budget]
        rw [hf]
      rw [hres]
      obtain ⟨ih1, ih2, ih3⟩ := ih cats nid
      refine ⟨ih1, ?_, ?_⟩
      · intro c hc
        obtain ⟨h1, h2, h3, ⟨t', ht', hfields⟩, h5⟩ := ih2 c hc
        exact ⟨h1, h2, h3, ⟨t', List.mem_cons_of_mem _ ht', hfields⟩, h5⟩
      · intro t' ht'
        rcases List.mem_cons.mp ht' with rfl | ht'
        · have hc0 : c0 ∈ cats := List.mem_of_find?_eq_some hf
          have hp : c0.budget = b ∧ c0.name = t'.name := by
            have := List.find?_some hf
            simpa using this
          exact ⟨c0, by rw [ih1]; exact List.mem_append_left _ hc0, hp⟩
        · exact ih3 t' ht'
    | none =>
      have hnew : ∀ c0 ∈ cats, ¬ (c0.budget = b ∧ c0.name = t.name) := by
        intro c0 hc0
        have := List.find?_eq_none.mp hf c0 hc0
        simpa using this
      obtain ⟨ih1, ih2, ih3⟩ :=
        ih (cats ++ [newCategoryFromTemplate t b nid]) (nid + 1)
      have hres : apply_to_budget (t :: rest) b cats nid =
          ((apply_to_budget rest b (cats ++ [newCategoryFromTemplate t b nid])
              (nid + 1)).1,
            newCategoryFromTemplate t b nid ::
              (apply_to_budget rest b
                (cats ++ [newCategoryFromTemplate t b nid]) (nid + 1)).2) := by
        simp only [apply_to_budget]
        rw [hf]
      rw [hres]
      refine ⟨?_, ?_, ?_⟩
      · simpa [List.append_assoc] using ih1
      · intro c hc
        rcases List.mem_cons.mp hc with rfl | hc
        · refine ⟨rfl, rfl, rfl,
            ⟨t, List.mem_cons_self _ _, rfl, rfl, rfl, rfl, rfl, rfl⟩, ?_⟩
          exact hnew
        · obtain ⟨h1, h2, h3, ⟨t', ht', hfields⟩, h5⟩ := ih2 c hc
          refine ⟨h1, h2, h3, ⟨t', List.mem_cons_of_mem _ ht', hfields⟩, ?_⟩
          intro c0 hc0
          exact h5 c0 (List.mem_append_left _ hc0)
      · intro t' ht'
        rcases List.mem_cons.mp ht' with rfl | ht'
        · refine ⟨newCategoryFromTemplate t' b nid, ?_, rfl, rfl⟩
          rw [ih1]
          exact List.mem_append_left _ (List.mem_append_right _
            (List.mem_singleton_self _))
        · exact ih3 t' ht'

/-- The template of spec.md section 8: [Salary/INCOME, Rent/FIXED_EXPENSE]. -/
def demoTemplateCategories : List TemplateCategory :=
  [{ name := "Salary", category_type := .INCOME, order := some 1 },
   { name := "Rent", category_type := .FIXED_EXPENSE, order := some 2 }]

/-- Claim C6 witness: applying the demo template to a fresh budget puts a
Salary category on it. -/
theorem apply_to_budget_spec_witness :
    ∃ c ∈ (apply_to_budget demoTemplateCategories 1 [] 1).1,
      c.budget = 1 ∧ c.name = "Salary" :=
  (apply_to_budget_spec demoTemplateCategories 1 [] 1).2.2
    { name := "Salary", category_type := .INCOME, order := some 1 }
    (by simp [demoTemplateCategories])

/-! ## The Budget model and the spreadsheet export (models.py, utils.py) -/

/-- models.py `Budget` (lines 6-17): the persisted columns are `name`
(unique) and `currency`.  There is no `year` column. -/
structure Budget where
  id : Nat
  name : String
  currency : String := "CHF"
  deriving DecidableEq, Repr

/-- Python exceptions that the embedded code can raise. -/
inductive PyExc
  | attributeError (message : String)
  | typeError (message : String)
  | importError (name : String)
  | improperlyConfigured (message : String)
  deriving DecidableEq, Repr

/-- The attribute access `budget.year`: the Budget model (models.py lines
6-17) defines no `year` field, so the access raises AttributeError. -/
def Budget.year_attr (_ : Budget) : Except PyExc Int :=
  .error (.attributeError "Budget object has no attribute year")

/-- The workbook the export would build; only the sheet title (utils.py
line 14) is ever assigned before the function raises. -/
structure Workbook where
  title : String
  deriving DecidableEq, Repr

/-- utils.py `export_budget_to_excel` (lines 10-154).  Its first statement,
line 14, is `ws.title = f"{budget.name} {budget.year}"`; the read of
`budget.year` raises, so the remainder of the function (the category grid,
status highlighting and balance row of lines 16-153 — which would also call
`budget.get_yearly_summary()` without its required `year` argument, and
filter entries by the nonexistent `budget.year`) is unreachable and no
spreadsheet is ever produced. -/
def export_budget_to_excel (b : Budget) : Except PyExc Workbook := do
  let year ← b.year_attr
  pure { title := b.name ++ " " ++ toString year }

/-- Claim C8 (code bug): for every budget, the export raises
AttributeError at its first statement instead of producing a spreadsheet,
because utils.py reads `budget.year` while the Budget model has no `year`
field (and later also calls `get_yearly_summary()` without the mandatory
`year` argument). -/
theorem export_always_raises (b : Budget) :
    export_budget_to_excel b =
      .error (.attributeError "Budget object has no attribute year") := rfl

/-! ## The REST exception handler (exception_handler.py, settings.py) -/

/-- The exceptions that can reach the handler configured in settings.py
(`EXCEPTION_HANDLER = core.exception_handler.rest_framework_exception_handler`):
framework `APIException`s (which the default DRF handler turns into a
response), `BrokenPipeError`, other `OSError`s, and anything else. -/
inductive PyRequestError
  | apiException (code : Nat) (detail : String)
  | brokenPipe (errno : Option Int) (message_has_broken_pipe : Bool)
  | osError (errno : Option Int) (message_has_broken_pipe : Bool)
  | otherError (message : String)
  deriving DecidableEq, Repr

/-- A response body is either a JSON object or an HTML page. -/
inductive ResponseBody
  | jsonObject (fields : List (String × String))
  | htmlPage (content : String)
  deriving DecidableEq, Repr

structure HandlerResponse where
  code : Nat
  body : ResponseBody
  deriving DecidableEq, Repr

/-- `str(exc)` for the purposes of the handler's body fields. -/
def excText : PyRequestError → String
  | .apiException _ d => d
  | .brokenPipe _ b => if b then "Broken pipe" else ""
  | .osError _ b => if b then "Broken pipe" else ""
  | .otherError m => m

/-- `type(exc).__name__`. -/
def excTypeName : PyRequestError → String
  | .apiException .. => "APIException"
  | .brokenPipe .. => "BrokenPipeError"
  | .osError .. => "OSError"
  | .otherError _ => "Exception"

/-- `rest_framework.views.exception_handler`: handles `APIException`s with
a JSON response at their status code and returns None for everything
else (exception_handler.py line 44). -/
def drf_exception_handler : PyRequestError → Option HandlerResponse
  | .apiException code detail =>
    some { code := code, body := .jsonObject [("detail", detail)] }
  | _ => none

/-- exception_handler.py lines 56-58: `isinstance(exc, (BrokenPipeError,
OSError))` and then `errno == 32 or 'Broken pipe' in str(exc) or
'BrokenPipeError' in type(exc).__name__` — for a `BrokenPipeError` the
type-name test is always true. -/
def is_broken_pipe_like : PyRequestError → Bool
  | .brokenPipe _ _ => true
  | .osError errno msg => errno == some 32 || msg
  | _ => false

/-- exception_handler.py `rest_framework_exception_handler` (lines 37-71):
DRF-handled exceptions pass through; a client-disconnect gets a 200 JSON
body; every other exception gets a 500 JSON body with `error`,
`error_type` and `detail` fields. -/
def rest_framework_exception_handler (e : PyRequestError) : HandlerResponse :=
  match drf_exception_handler e with
  | some r => r
  | none =>
    if is_broken_pipe_like e then
      { code := 200, body := .jsonObject [("error", "Client disconnected")] }
    else
      { code := 500,
        body := .jsonObject
          [("error", excText e), ("error_type", excTypeName e),
           ("detail", "An error occurred processing your request")] }

def hasErrorField : ResponseBody → Bool
  | .jsonObject fields => fields.any (fun f => f.1 == "error")
  | .htmlPage _ => false

def isJsonBody : ResponseBody → Bool
  | .jsonObject _ => true
  | .htmlPage _ => false

/-- Claim C9 counterexample: a `BrokenPipeError` raised while processing a
request is an unhandled exception (the DRF handler returns None for it),
yet the configured handler answers with HTTP 200, not 500. -/
theorem internal_error_counterexample :
    drf_exception_handler (.brokenPipe none false) = none ∧
    (rest_framework_exception_handler (.brokenPipe none false)).code = 200 ∧
    (rest_framework_exception_handler (.brokenPipe none false)).code ≠ 500 := by
  refine ⟨rfl, rfl, by decide⟩

/-- Claim C9 (amended): every unhandled exception that is not a
client-disconnect (BrokenPipeError, or an OSError with errno 32 or
'Broken pipe' in its message) yields an HTTP 500 response whose body is
JSON containing an `error` field; a client-disconnect yields HTTP 200 with
a JSON `error` body; in neither case is an HTML page produced. -/
theorem internal_error_amended_spec (e : PyRequestError)
    (hunhandled : drf_exception_handler e = none) :
    (is_broken_pipe_like e = false →
      (rest_framework_exception_handler e).code = 500 ∧
      hasErrorField (rest_framework_exception_handler e).body = true) ∧
    (is_broken_pipe_like e = true →
      (rest_framework_exception_handler e).code = 200 ∧
      hasErrorField (rest_framework_exception_handler e).body = true) ∧
    isJsonBody (rest_framework_exception_handler e).body = true := by
  unfold rest_framework_exception_handler
  rw [hunhandled]
  cases hb : is_broken_pipe_like e <;>
    simp [hb, hasErrorField, isJsonBody]

/-- Claim C9 witness: a generic unhandled exception gets the 500 JSON
`error` response. -/
theorem internal_error_amended_spec_witness :
    (rest_framework_exception_handler (.otherError "boom")).code = 500 ∧
    hasErrorField (rest_framework_exception_handler (.otherError "boom")).body
      = true :=
  (internal_error_amended_spec (.otherError "boom") rfl).1 rfl
/-! ## The store and the budget import (views.py `BudgetViewSet.import_budget`)

The relational store is embedded as lists of rows per table with a single
fresh-id counter.  In this snapshot the import endpoint of views.py lines
169-286 is unreachable code: views.py lines 7-18 import three serializer
names that serializers.py does not define, so loading the views module
raises ImportError; and the handler body itself would raise at its first
serializer use, because the BudgetSerializer present in serializers.py
(line 10) still lists the removed `year` field.  The entries loop of lines
221-239, whose skip behaviour claim C10 describes, is embedded directly
over the store. -/

/-- models.py `MonthlyActualBalance` (lines 307-334): persisted columns. -/
structure MonthlyActualBalance where
  budget : Nat
  month : Int
  year : Int
  actual_income : Rat := 0
  actual_expenses : Rat := 0
  deriving DecidableEq, Repr

/-- The relational store: one list of rows per table, plus the fresh-id
counter. -/
structure Store where
  budgets : List Budget
  categories : List BudgetCategory
  entries : List BudgetEntry
  tax_entries : List TaxEntry
  salary_reductions : List SalaryReduction
  actual_balances : List MonthlyActualBalance
  next_id : Nat
  deriving DecidableEq, Repr

/-! ### The import payload (the nested JSON of views.py lines 173-179) -/

structure BudgetPayload where
  name : Option String := none
  currency : Option String := none
  deriving DecidableEq, Repr

structure CategoryPayload where
  id : Option Nat := none
  name : Option String := none
  category_type : Option String := none
  order : Int := 0
  is_active : Bool := true
  input_mode : String := "MONTHLY"
  custom_months : Option Int := none
  custom_start_month : Option Int := none
  yearly_amount : Option Rat := none
  deriving DecidableEq, Repr

structure EntryPayload where
  category : Option Nat := none
  month : Option Int := none
  year : Option Int := none
  planned_amount : Option Rat := none
  actual_amount : Option Rat := none
  notes : String := ""
  deriving DecidableEq, Repr

structure TaxPayload where
  name : Option String := none
  percentage : Option Rat := none
  order : Int := 0
  is_active : Bool := true
  deriving DecidableEq, Repr

structure ReductionPayload where
  name : Option String := none
  reduction_type : Option String := none
  value : Option Rat := none
  order : Int := 0
  is_active : Bool := true
  deriving DecidableEq, Repr

structure BalancePayload where
  month : Option Int := none
  year : Option Int := none
  actual_income : Option Rat := none
  actual_expenses : Option Rat := none
  deriving DecidableEq, Repr

structure ImportPayload where
  budget : BudgetPayload := {}
  categories : List CategoryPayload := []
  entries : List EntryPayload := []
  tax_entries : List TaxPayload := []
  salary_reductions : List ReductionPayload := []
  actual_balances : List BalancePayload := []
  deriving DecidableEq, Repr

/-- `category_id_mapping.get(old_category_id)` (views.py line 223). -/
def mappingGet (mapping : List (Nat × Nat)) (k : Option Nat) : Option Nat :=
  k.bind (fun old => (mapping.find? (fun pr => decide (pr.1 = old))).map
    (fun pr => pr.2))

/-- Entry field validation of the BudgetEntrySerializer present in
serializers.py (lines 30-43), whose validators come from the models.py
field declarations (lines 171-187): month in 1..12, year in 2000..2100,
amounts non-null. -/
def validateEntryFields (e : EntryPayload) : Except String (Int × Int × Rat) :=
  match e.month with
  | none => .error "entry.month: required"
  | some m =>
    if decide (1 ≤ m) && decide (m ≤ 12) then
      match e.year with
      | none => .error "entry.year: required"
      | some y =>
        if decide (2000 ≤ y) && decide (y ≤ 2100) then
          match e.planned_amount with
          | none => .error "entry.planned_amount: may not be null"
          | some planned => .ok (m, y, planned)
        else .error "entry.year: out of range"
    else .error "entry.month: out of range"

/-- The entry row created at views.py lines 227-236; saving recomputes the
status (models.py `BudgetEntry.save`). -/
def entryRowOf (ncid : Nat) (m y : Int) (planned : Rat) (ct : CategoryType)
    (e : EntryPayload) : BudgetEntry :=
  BudgetEntry.save
    { category := ncid, month := m, year := y, planned_amount := planned,
      actual_amount := e.actual_amount, notes := e.notes } ct

/-- views.py lines 221-239, the entries loop of the import: unmapped
category references are skipped with `continue` (`if not new_category_id`,
so an id of 0 is also skipped); a saved entry recomputes its status
(models.py `BudgetEntry.save`); the (category, month, year) uniqueness of
models.py line 198 is enforced at validation time. -/
def importEntries :
    Store → List (Nat × Nat) → List EntryPayload → Store × Option String
  | s, _, [] => (s, none)
  | s, mapping, e :: rest =>
    match mappingGet mapping e.category with
    | none => importEntries s mapping rest
    | some ncid =>
      if ncid = 0 then importEntries s mapping rest
      else
        match validateEntryFields e with
        | .error err => (s, some err)
        | .ok (m, y, planned) =>
          match s.categories.find? (fun c => decide (c.id = ncid)) with
          | none => (s, some "entry.category: does not exist")
          | some cat =>
            if s.entries.any (fun ex =>
                decide (ex.category = ncid ∧ ex.month = m ∧ ex.year = y)) then
              (s, some "entry: fields category, month, year must make a unique set")
            else
              importEntries
                { s with entries := s.entries ++
                    [entryRowOf ncid m y planned cat.category_type e] }
                mapping rest

inductive ImportResponse
  | badRequest (error : String)
  | created (budget_id : Nat)
  deriving DecidableEq, Repr

/-- The serializer names views.py lines 7-18 imports from
core.serializers, in source order. -/
def viewsSerializerImports : List String :=
  ["BudgetSerializer", "BudgetCategorySerializer", "BudgetEntrySerializer",
   "BudgetTemplateSerializer", "TaxEntrySerializer",
   "SalaryReductionSerializer", "MonthlySummarySerializer",
   "YearlySummarySerializer", "BudgetSummarySerializer",
   "MonthlyActualBalanceSerializer"]

/-- The serializer classes serializers.py actually defines. -/
def serializersModuleClasses : List String :=
  ["BudgetSerializer", "BudgetCategorySerializer", "BudgetEntrySerializer",
   "BudgetTemplateSerializer", "MonthlySummarySerializer",
   "YearlySummarySerializer", "BudgetSummarySerializer"]

/-- The Python statement `from .serializers import (...)` at views.py
lines 7-18: it raises ImportError at the first requested name the module
does not define, so the views module loads only when every name is
present. -/
def loadViewsModule : Except PyExc Unit :=
  match viewsSerializerImports.find?
      (fun n => ! serializersModuleClasses.contains n) with
  | some n => .error (.importError n)
  | none => .ok ()

/-- views.py `import_budget` lines 169-196 as present in src, were the
views module loadable: reading the payload and the duplicate-name rename
(lines 181-187) succeed, but `budget_serializer.is_valid()` (line 193)
builds BudgetSerializer's fields, and its Meta.fields (serializers.py line
10) lists `year`, which the Budget model no longer defines, so it raises
ImproperlyConfigured before any record is created; lines 196-286 — the
creation loops and the `budget.delete()` rollback on a validation error —
are unreachable. -/
def import_budget_handler (s : Store) (p : ImportPayload) (now : String) :
    Except PyExc (Store × ImportResponse) :=
  let requested := p.budget.name.getD "Imported Budget"
  let _budget_name :=
    if s.budgets.any (fun b => decide (b.name = requested)) then
      requested ++ " (Import " ++ now ++ ")"
    else requested
  Except.error (.improperlyConfigured
    "Field name year is not valid for model Budget")

/-- A POST to the import endpoint as src stands: dispatching the request
needs the views module, whose serializer import fails, so the request
raises before the handler body runs or the store is touched. -/
def import_budget_endpoint (s : Store) (p : ImportPayload) (now : String) :
    Except PyExc (Store × ImportResponse) := do
  let _ ← loadViewsModule
  import_budget_handler s p now

/-- Claim C5 (code bug): no budget import can ever reach a validation
step, so no validation failure, rollback, or first-error response occurs.
Every request raises ImportError, because views.py imports
TaxEntrySerializer (and two further names) that serializers.py does not
define; and even the handler body would raise ImproperlyConfigured at its
first serializer use (views.py line 193), before creating any record,
because the stale BudgetSerializer still lists the removed `year` field.
The rollback control flow the claim describes (`budget.delete()` at
views.py lines 217, 238, 252, 267 and 281) is dead code in this
snapshot. -/
theorem import_never_reaches_validation (s : Store) (p : ImportPayload)
    (now : String) :
    import_budget_endpoint s p now =
      .error (.importError "TaxEntrySerializer") ∧
    import_budget_handler s p now =
      .error (.improperlyConfigured
        "Field name year is not valid for model Budget") :=
  ⟨rfl, rfl⟩

/-- An empty store with the id sequence at 1. -/
def emptyStore : Store := ⟨[], [], [], [], [], [], 1⟩

/-- A payload with one category (payload id 1) and two entries: the first
references payload category 1 (mapped), the second references payload
category 7, for which no mapping exists. -/
def unmappedEntryPayload : ImportPayload :=
  { budget := { name := some "B" },
    categories :=
      [{ id := some 1, name := some "C", category_type := some "INCOME" }],
    entries :=
      [{ category := some 1, month := some 1, year := some 2026,
         planned_amount := some 100 },
       { category := some 7, month := some 1, year := some 2026,
         planned_amount := some 50 }] }

/-- Claim C10 (code bug): the entries loop of the import (views.py lines
221-225) silently skips every entry whose category reference has no
identifier mapping — the store is unchanged, no error is reported, and the
loop proceeds with the remaining entries; but the claim's "the import
proceeds and can still succeed" fails in src: the endpoint raises
ImportError before any payload is read, so no import request — including
one with an unmapped entry — is ever processed, let alone succeeds. -/
theorem import_skips_unmapped_entries :
    (∀ (s : Store) (mapping : List (Nat × Nat)) (e : EntryPayload)
        (rest : List EntryPayload),
      mappingGet mapping e.category = none →
      importEntries s mapping (e :: rest) = importEntries s mapping rest) ∧
    import_budget_endpoint emptyStore unmappedEntryPayload "T" =
      .error (.importError "TaxEntrySerializer") := by
  constructor
  · intro s mapping e rest hm
    simp only [importEntries]
    rw [hm]
  · rfl

/-- Claim C10 witness: a concrete skipped entry — with an empty mapping the
entries loop ignores the entry referencing category 7 entirely. -/
theorem import_skips_unmapped_entries_witness :
    importEntries emptyStore []
        [{ category := some 7, month := some 1, year := some 2026,
           planned_amount := some 50 }] =
      importEntries emptyStore [] [] :=
  import_skips_unmapped_entries.1 emptyStore []
    { category := some 7, month := some 1, year := some 2026,
      planned_amount := some 50 } [] rfl

end BudgetPlaner
